import Mathlib

/-!
Shallow embedding of the temp-mongo crate: a temporary MongoDB instance
managed through a scoped temporary directory (TempDir), a supervised child
process (KillOnDrop), an OS port allocator (PortGenerator) and the launch
and disposal operations of TempMongo (from_builder, kill_and_clean,
kill_no_clean, and the compiler generated drop glue).

Filesystem effects are modelled on a small state FS recording whether the
scoped directory, its db subdirectory and the mongod.log file exist.
Outcomes of OS calls (directory creation, bind, spawn, connect, readiness
probe, kill, removal) are inputs of the model, supplied as boolean oracles
(LaunchEnv, OsNet, explicit parameters), because the embedded code only
branches on success or failure of those calls.
-/

/-- Decidable equality for Except results, needed so that concrete runs of
the embedded operations can be checked by evaluation. -/
instance {ε α : Type} [DecidableEq ε] [DecidableEq α] : DecidableEq (Except ε α) :=
  fun a b =>
    match a, b with
    | .ok x, .ok y =>
      if h : x = y then .isTrue (h ▸ rfl)
      else .isFalse (by intro hh; injection hh; exact h (by assumption))
    | .error x, .error y =>
      if h : x = y then .isTrue (h ▸ rfl)
      else .isFalse (by intro hh; injection hh; exact h (by assumption))
    | .ok _, .error _ => .isFalse (by intro hh; exact Except.noConfusion hh)
    | .error _, .ok _ => .isFalse (by intro hh; exact Except.noConfusion hh)

/-- Result kind of a fallible OS call, mirroring the std::io::Error values
the sources distinguish (InvalidInput is the error Child::kill reports on a
process whose exit status was already reaped). -/
inductive IoErr
  | ioErr
  | invalidInput
deriving DecidableEq, Repr

/-- Filesystem facts the verified claims mention: existence of the scoped
temporary directory, of the db subdirectory inside it and of the mongod.log
file inside it. -/
structure FS where
  tmpDir : Bool
  dbDir : Bool
  logFile : Bool
deriving DecidableEq, Repr

/-- Recursive removal of the scoped directory removes everything inside it,
so all three existence facts become false. -/
def FS.removeTree (_fs : FS) : FS := ⟨false, false, false⟩

/-- Model of util/temp_dir.rs TempDir: a ManuallyDrop wrapped tempfile
directory plus the clean_on_drop flag. The forgotten flag records that
into_inner has run mem::forget on the wrapper, so the Drop impl will not
run removal afterwards (in Rust the Drop simply never runs on a moved-out
value; the flag makes that visible to the model). -/
structure TempDir where
  path : String
  clean_on_drop : Bool
  forgotten : Bool
deriving DecidableEq, Repr

/-- Model of TempDir::set_clean_on_drop. -/
def TempDir.set_clean_on_drop (d : TempDir) (clean : Bool) : TempDir :=
  { d with clean_on_drop := clean }

/-- Model of TempDir::into_inner: ManuallyDrop::take the inner directory
and mem::forget the wrapper, disabling its Drop. -/
def TempDir.into_inner (d : TempDir) : TempDir :=
  { d with forgotten := true }

/-- Model of TempDir::into_path: persist the directory (no removal) and
return its path; consumes the wrapper through into_inner. -/
def TempDir.into_path (d : TempDir) : String × TempDir :=
  (d.path, d.into_inner)

/-- Model of TempDir::close: remove the directory from the filesystem
unconditionally, ignoring clean_on_drop; osOk is the outcome of the
underlying removal call. -/
def TempDir.close (d : TempDir) (osOk : Bool) (fs : FS) :
    Except IoErr Unit × TempDir × FS :=
  if osOk then (.ok (), d.into_inner, fs.removeTree)
  else (.error .ioErr, d.into_inner, fs)

/-- Effect of the Drop impl of TempDir on the filesystem: removal runs only
when the wrapper was not forgotten and clean_on_drop is set. -/
def TempDir.dropRun (d : TempDir) (fs : FS) : FS :=
  if d.forgotten then fs
  else if d.clean_on_drop then fs.removeTree
  else fs

/-- Teardown events, used to state the ordering properties of the disposal
paths of TempMongo and the removal count of TempDir. -/
inductive Ev
  | clientShutdown
  | clientDrop
  | killServer
  | waitServer
  | removeDir
  | persistDir
deriving DecidableEq, BEq, Repr

/-- Index of the first occurrence of an event in a trace. -/
def firstIdx : List Ev → Ev → Option Nat
  | [], _ => none
  | x :: xs, e => if x = e then some 0 else (firstIdx xs e).map (· + 1)

/-- In trace t, event a occurs before the first occurrence of b (vacuously
true when b does not occur). -/
def beforeB (t : List Ev) (a b : Ev) : Bool :=
  match firstIdx t b with
  | none => true
  | some j =>
    match firstIdx t a with
    | none => false
    | some i => decide (i < j)

/-- The teardown ordering stated by the spec: the client is shut down (or at
least released) before the first kill of the server, and the first kill of
the server precedes any removal of the scoped directory. -/
def teardownOrderedB (t : List Ev) : Bool :=
  (beforeB t .clientShutdown .killServer || beforeB t .clientDrop .killServer) &&
  beforeB t .killServer .removeDir

/-- Events of the Drop impl of TempDir. -/
def tempDirDropEvs (clean_on_drop forgotten : Bool) : List Ev :=
  if forgotten then []
  else if clean_on_drop then [.removeDir]
  else []

/-- Events of the Drop impl of KillOnDrop: kill then wait. -/
def killOnDropEvs : List Ev := [.killServer, .waitServer]

/-- Events of the compiler generated drop glue of TempMongo. The struct
fields are dropped in declaration order: tempdir, socket_path, log_path,
client, server, seed. Only tempdir (conditional removal), client (handle
released) and server (killed and waited) have observable effects. -/
def tempMongoDropEvs (clean_on_drop : Bool) : List Ev :=
  tempDirDropEvs clean_on_drop false ++ [.clientDrop] ++ killOnDropEvs

/-- Events of TempMongo::kill_and_clean: shutdown_immediate on the client
(which consumes it), kill of the server, then on the kill error path the
early return drops the remaining fields of self (tempdir per clean_on_drop,
server killed and waited again), while on the kill success path the
tempdir.close call attempts the removal (forgetting the tempdir) and the
remaining server field is dropped at the end of the function. -/
def killAndCleanEvs (killOk clean_on_drop : Bool) : List Ev :=
  [.clientShutdown, .killServer] ++
    (if killOk then Ev.removeDir :: killOnDropEvs
     else tempDirDropEvs clean_on_drop false ++ killOnDropEvs)

/-- Events of TempMongo::kill_no_clean: tempdir.into_path persists the
directory and forgets the tempdir, then the client is shut down, the server
is killed, and the drop of the remaining self fields kills and waits the
server again (the forgotten tempdir contributes nothing). -/
def killNoCleanEvs : List Ev :=
  [.persistDir, .clientShutdown, .killServer] ++ killOnDropEvs

/-- At-most-once lifecycle terminators of a TempDir value: the value is
either dropped, or consumed by into_path, or consumed by close. Rust
ownership rules out any second terminator on the same value. -/
inductive TempDirLast
  | dropIt
  | intoPathOp
  | closeOp
deriving DecidableEq, Repr

/-- Removal events produced by a complete TempDir lifecycle ending in the
given terminator. For into_path and close the wrapper has been consumed by
into_inner, so the appended Drop contribution is computed with the
forgotten flag set and is empty. -/
def TempDir.lifecycleEvents (d : TempDir) (last : TempDirLast) : List Ev :=
  match last with
  | .dropIt => tempDirDropEvs d.clean_on_drop d.forgotten
  | .intoPathOp => tempDirDropEvs d.clean_on_drop true
  | .closeOp => Ev.removeDir :: tempDirDropEvs d.clean_on_drop true

/-- Model of std::process::Child as the sources use it: alive says the
process has not exited yet, waited says the exit status has been reaped. -/
structure Child where
  alive : Bool
  waited : Bool
deriving DecidableEq, Repr

/-- Model of Child::kill, following the documented std semantics: after
wait has reaped the exit status the call fails with InvalidInput;
signalling an exited but unreaped process is an accepted no-op; signalling
a live process succeeds exactly when the OS call does (oracle osOk). -/
def Child.kill (c : Child) (osOk : Bool) : Except IoErr Unit × Child :=
  if c.waited then (.error .invalidInput, c)
  else if c.alive then
    if osOk then (.ok (), { c with alive := false })
    else (.error .ioErr, c)
  else (.ok (), c)

/-- Model of Child::wait: blocks until the process exits, then reaps it; a
second wait fails. -/
def Child.wait (c : Child) : Except IoErr Unit × Child :=
  if c.waited then (.error .invalidInput, c)
  else (.ok (), ⟨false, true⟩)

/-- Model of util/kill_on_drop.rs KillOnDrop: wrapper owning one child. -/
structure KillOnDrop where
  child : Child
deriving DecidableEq, Repr

/-- Model of KillOnDrop::new. -/
def KillOnDrop.new (child : Child) : KillOnDrop := ⟨child⟩

/-- Model of KillOnDrop::kill: forwards Child::kill. -/
def KillOnDrop.kill (k : KillOnDrop) (osOk : Bool) :
    Except IoErr Unit × KillOnDrop :=
  let (r, c) := k.child.kill osOk
  (r, ⟨c⟩)

/-- Model of the Drop impl of KillOnDrop: self.child.kill().ok() followed
by self.child.wait().ok(). Both results are discarded by Result::ok, so the
implicit path surfaces no error by construction; only the final child state
is observable, which is why the model returns just the wrapper. -/
def KillOnDrop.dropRun (k : KillOnDrop) (osOk : Bool) : KillOnDrop :=
  let (_, c1) := k.child.kill osOk
  let (_, c2) := c1.wait
  ⟨c2⟩

/-- Outcomes of the two OS calls PortGenerator::generate performs: the bind
of a transient loopback listener on port zero, and the local_addr read-back
of the port the OS assigned (none when that read-back fails). -/
structure OsNet where
  bindOk : Bool
  localAddrPort : Option Nat
deriving DecidableEq, Repr

/-- Model of util/port_finder.rs PortGenerator. -/
structure PortGenerator where
  selected_port : Option Nat
deriving DecidableEq, Repr

/-- Model of PortGenerator::new. -/
def PortGenerator.new : PortGenerator := ⟨none⟩

/-- Model of PortGenerator::generate: if the bind of a transient listener
on ("127.0.0.1", 0) succeeds and local_addr returns the assigned address,
store its port; otherwise leave selected_port untouched. The listener is
closed when the transient value goes out of scope. -/
def PortGenerator.generate (g : PortGenerator) (net : OsNet) : PortGenerator :=
  if net.bindOk then
    match net.localAddrPort with
    | some p => { g with selected_port := some p }
    | none => g
  else g

/-- Model of error.rs ErrorInner (io and driver error payloads elided,
path and command payloads kept as strings). -/
inductive ErrorInner
  | MakeTempDir
  | MakeDbDir (path : String)
  | SpawnServer (command : String)
  | KillServer
  | CleanDir (path : String)
  | Connect (address : String)
  | Port
deriving DecidableEq, Repr

/-- True exactly when the result is a CleanDir error. -/
def isCleanDirErr : Except ErrorInner Unit → Bool
  | .error (.CleanDir _) => true
  | _ => false

/-- Model of mongodb ServerAddress as used by from_builder: either a Unix
domain socket path or a TCP host plus port. -/
inductive ServerAddress
  | unixSock (path : String)
  | tcp (host : String) (port : Nat)
deriving DecidableEq, Repr

/-- Model of the ClientOptions from_builder constructs; the constructed
client is identified by its options. -/
structure ClientOptions where
  hosts : List ServerAddress
  connectTimeoutMs : Nat
  direct_connection : Bool
deriving DecidableEq, Repr

/-- Model of the TempMongo struct, fields in source declaration order
(tempdir, socket_path, log_path, client, server; the seed field carries no
state the claims mention). -/
structure TempMongo where
  tempdir : TempDir
  socket_path : String
  log_path : String
  client : ClientOptions
  server : KillOnDrop
deriving DecidableEq, Repr

/-- Model of TempMongoBuilder, fields in source order. -/
structure TempMongoBuilder where
  parent_directory : Option String
  clean_on_drop : Bool
  command : Option String
deriving DecidableEq, Repr

/-- Model of TempMongoBuilder::new: no parent directory, no command
override, clean_on_drop true. -/
def TempMongoBuilder.new : TempMongoBuilder := ⟨none, true, none⟩

/-- Model of TempMongoBuilder::get_command: the override or "mongod". -/
def TempMongoBuilder.get_command (b : TempMongoBuilder) : String :=
  b.command.getD "mongod"

/-- Model of TempMongoBuilder::get_command_string. -/
def TempMongoBuilder.get_command_string (b : TempMongoBuilder) : String :=
  b.get_command

/-- Root under which the scoped temporary directory is created. -/
inductive TempDirRoot
  | systemTemp
  | inDir (parent : String)
deriving DecidableEq, Repr

/-- Model of TempMongoBuilder::make_temp_dir: TempDir::new_in under the
configured parent, TempDir::new under the system temp root otherwise; the
second component is the clean_on_drop flag handed to the TempDir. -/
def TempMongoBuilder.make_temp_dir (b : TempMongoBuilder) : TempDirRoot × Bool :=
  match b.parent_directory with
  | some dir => (.inDir dir, b.clean_on_drop)
  | none => (.systemTemp, b.clean_on_drop)

/-- Platform class distinguished by the cfg(unix) and cfg(windows) blocks
of from_builder. -/
inductive Platform
  | unix
  | windows
deriving DecidableEq, Repr

/-- Oracles for the fallible steps of the launch algorithm, plus the path
the OS picked for the scoped temporary directory. -/
structure LaunchEnv where
  tempDirOk : Bool
  tempDirPath : String
  dbDirOk : Bool
  net : OsNet
  spawnOk : Bool
  clientOk : Bool
  probeOk : Bool
deriving DecidableEq, Repr

/-- Observable world state after a launch attempt: the filesystem facts,
whether a server process was ever spawned and whether it is still alive. -/
structure World where
  fs : FS
  procSpawned : Bool
  procAlive : Bool
deriving DecidableEq, Repr

/-- Server address string computed by from_builder: on unix the mongod.sock
path inside the scoped directory, on windows the literal localhost. -/
def serverAddressString (p : Platform) (tempDirPath : String) : String :=
  match p with
  | .unix => tempDirPath ++ "/mongod.sock"
  | .windows => "localhost"

/-- Model of TempMongo::from_builder. Mirrors the source step by step:
create the scoped directory, create the db subdirectory, compute the log
path, pick the platform dependent server address, unconditionally run the
port generator and fail with Port when no port was selected, spawn the
server (the spawned mongod creates its log file at log_path), wrap it in
KillOnDrop, build the single-host ClientOptions, construct the client and
run the list_databases readiness probe. On every early error return the
Rust locals are dropped in reverse declaration order, so the KillOnDrop (if
reached) kills the process and the TempDir removes the directory when its
clean_on_drop flag is set. -/
def TempMongo.from_builder (p : Platform) (env : LaunchEnv) (b : TempMongoBuilder) :
    Except ErrorInner TempMongo × World :=
  if env.tempDirOk then
    let tempdir : TempDir := ⟨env.tempDirPath, b.clean_on_drop, false⟩
    let db_dir := env.tempDirPath ++ "/db"
    let log_path := env.tempDirPath ++ "/mongod.log"
    let fs1 : FS := ⟨true, false, false⟩
    if env.dbDirOk then
      let fs2 : FS := ⟨true, true, false⟩
      let server_address := serverAddressString p env.tempDirPath
      let socket_path := server_address
      let random_port := PortGenerator.new.generate env.net
      match random_port.selected_port with
      | none => (.error .Port, ⟨tempdir.dropRun fs2, false, false⟩)
      | some mongodb_port =>
        if env.spawnOk then
          let fs3 : FS := ⟨true, true, true⟩
          let server := KillOnDrop.new ⟨true, false⟩
          let hosts : List ServerAddress :=
            match p with
            | .unix => [.unixSock socket_path]
            | .windows => [.tcp "localhost" mongodb_port]
          let client_options : ClientOptions := ⟨hosts, 100, true⟩
          if env.clientOk then
            if env.probeOk then
              (.ok ⟨tempdir, socket_path, log_path, client_options, server⟩,
                ⟨fs3, true, true⟩)
            else
              (.error (.Connect server_address),
                ⟨tempdir.dropRun fs3, true, false⟩)
          else
            (.error (.Connect server_address),
              ⟨tempdir.dropRun fs3, true, false⟩)
        else
          (.error (.SpawnServer b.get_command_string),
            ⟨tempdir.dropRun fs2, false, false⟩)
    else
      (.error (.MakeDbDir db_dir), ⟨tempdir.dropRun fs1, false, false⟩)
  else
    (.error .MakeTempDir, ⟨⟨false, false, false⟩, false, false⟩)

/-- Model of TempMongo::kill_and_clean: shutdown_immediate on the client,
kill the server (mapping a failure to KillServer, with the early return
dropping the remaining fields of self, in particular the tempdir according
to its clean_on_drop flag), then close the tempdir unconditionally, mapping
a removal failure to CleanDir carrying the path. -/
def TempMongo.kill_and_clean (m : TempMongo) (killOsOk closeOk : Bool) (w : World) :
    Except ErrorInner Unit × World :=
  let (r, _server) := m.server.kill killOsOk
  match r with
  | .error _ =>
    (.error .KillServer, ⟨m.tempdir.dropRun w.fs, w.procSpawned, false⟩)
  | .ok _ =>
    let path := m.tempdir.path
    let (rc, _td, fs) := m.tempdir.close closeOk w.fs
    match rc with
    | .error _ => (.error (.CleanDir path), ⟨fs, w.procSpawned, false⟩)
    | .ok _ => (.ok (), ⟨fs, w.procSpawned, false⟩)

/-- Model of TempMongo::kill_no_clean: tempdir.into_path persists the
directory and binds the returned path to a discarded variable, then the
client is shut down and the server killed (a failure maps to KillServer).
No removal happens on any branch and the function returns unit. -/
def TempMongo.kill_no_clean (m : TempMongo) (killOsOk : Bool) (w : World) :
    Except ErrorInner Unit × World :=
  let (_path, _td) := m.tempdir.into_path
  let (r, _server) := m.server.kill killOsOk
  match r with
  | .error _ => (.error .KillServer, ⟨w.fs, w.procSpawned, false⟩)
  | .ok _ => (.ok (), ⟨w.fs, w.procSpawned, false⟩)

/-- C1 counterexample: on the implicit disposal path, dropping a TempMongo
whose clean_on_drop flag is true removes the scoped directory at trace
index 0, before the server kill at trace index 2, so the claimed teardown
ordering fails on the drop path. -/
theorem drop_path_removes_dir_before_kill :
    teardownOrderedB (tempMongoDropEvs true) = false ∧
    firstIdx (tempMongoDropEvs true) .removeDir = some 0 ∧
    firstIdx (tempMongoDropEvs true) .killServer = some 2 := by decide

/-- C1 amended: the teardown ordering (client shut down or released before
the first server kill, first server kill before any directory removal)
holds on both explicit disposal paths for every kill outcome and clean
mode, while on the implicit drop path it holds exactly when clean_on_drop
is false: the fields of TempMongo are dropped in declaration order, so with
clean_on_drop true the directory is removed before the server is killed. -/
theorem teardown_order_per_path :
    ∀ killOk clean : Bool,
      teardownOrderedB (killAndCleanEvs killOk clean) = true ∧
      teardownOrderedB killNoCleanEvs = true ∧
      teardownOrderedB (tempMongoDropEvs clean) = !clean := by decide

/-- C6: process termination is idempotent: starting from any child whose
exit status was not yet reaped, a first successful kill followed by a
second kill (whatever the OS oracle says for it) reports plain success and
leaves the process dead, and the implicit drop path, which discards both
call results through Result::ok, always completes without surfacing an
error and leaves the child dead and reaped. -/
theorem kill_twice_reports_success :
    ∀ alive osOk1 osOk2 : Bool,
      (((KillOnDrop.new ⟨alive, false⟩).kill true).2.kill osOk2).1 = .ok () ∧
      (((KillOnDrop.new ⟨alive, false⟩).kill true).2.kill osOk2).2.child.alive = false ∧
      ((KillOnDrop.new ⟨alive, false⟩).dropRun osOk1).child = ⟨false, true⟩ := by decide

/-- C9: a newly created builder has no parent directory (so make_temp_dir
creates the scoped directory under the system temp root), clean_on_drop set
to true, and resolves the command to mongod when no override is set. -/
theorem builder_defaults :
    TempMongoBuilder.new.parent_directory = none ∧
    TempMongoBuilder.new.clean_on_drop = true ∧
    TempMongoBuilder.new.get_command = "mongod" ∧
    TempMongoBuilder.new.make_temp_dir = (.systemTemp, true) :=
  ⟨rfl, rfl, rfl, rfl⟩

/-- C10: across every complete lifecycle of a TempDir value the underlying
removal runs at most once: the drop terminator removes exactly when
clean_on_drop is set and the wrapper was not forgotten, into_path never
removes, and close removes exactly once, the wrapper having been forgotten
by into_inner so that its Drop contributes nothing further. -/
theorem tempdir_removal_at_most_once :
    ∀ (path : String) (clean forgotten : Bool) (last : TempDirLast),
      ((TempDir.mk path clean forgotten).lifecycleEvents last).count .removeDir ≤ 1 ∧
      ((TempDir.mk path clean false).lifecycleEvents .dropIt).count .removeDir
        = (if clean then 1 else 0) ∧
      ((TempDir.mk path clean false).lifecycleEvents .intoPathOp).count .removeDir = 0 ∧
      ((TempDir.mk path clean false).lifecycleEvents .closeOp).count .removeDir = 1 := by
  intro path clean forgotten last
  cases clean <;> cases forgotten <;> cases last <;>
    (try simp [TempDir.lifecycleEvents, tempDirDropEvs]) <;> (try decide)

/-- C8 counterexample: generate leaves selected_port at none when the bind
succeeded but the local_addr read-back failed, so a none result does not
only arise from an OS-level bind failure. -/
theorem generate_none_despite_bind_ok :
    (PortGenerator.new.generate ⟨true, none⟩).selected_port = none ∧
    (OsNet.mk true none).bindOk = true := by decide

/-- C8 amended: generate stores exactly the port that local_addr read back
when the bind succeeded, so selected_port is none exactly when the bind
failed or the read-back failed; and whenever the directory steps of a
launch succeeded while no port was selected, the launch surfaces the
dedicated Port error, never a silent default. -/
theorem port_allocation_reads_os_port
    (net : OsNet) (p : Platform) (env : LaunchEnv) (b : TempMongoBuilder) :
    (PortGenerator.new.generate net).selected_port
      = (if net.bindOk then net.localAddrPort else none) ∧
    (env.tempDirOk = true → env.dbDirOk = true →
      (PortGenerator.new.generate env.net).selected_port = none →
      (TempMongo.from_builder p env b).1 = .error .Port) := by
  constructor
  · obtain ⟨bOk, la⟩ := net
    cases bOk <;> cases la <;> simp [PortGenerator.new, PortGenerator.generate]
  · intro h1 h2 h3
    obtain ⟨td, pth, db, ⟨bOk, la⟩, sp, cl, pr⟩ := env
    simp only at h1 h2 h3 ⊢
    subst h1
    subst h2
    cases bOk <;> cases la <;>
      simp_all [TempMongo.from_builder, PortGenerator.new, PortGenerator.generate]

/-- C8 witness: the amended theorem applied to a bind failure inside an
otherwise healthy launch environment. -/
theorem port_allocation_reads_os_port_witness :
    (PortGenerator.new.generate ⟨false, none⟩).selected_port = none ∧
    (TempMongo.from_builder .unix
        ⟨true, "/tmp/t", true, ⟨false, none⟩, true, true, true⟩
        TempMongoBuilder.new).1 = .error .Port :=
  ⟨(port_allocation_reads_os_port ⟨false, none⟩ .unix
      ⟨true, "/tmp/t", true, ⟨false, none⟩, true, true, true⟩ TempMongoBuilder.new).1,
   (port_allocation_reads_os_port ⟨false, none⟩ .unix
      ⟨true, "/tmp/t", true, ⟨false, none⟩, true, true, true⟩ TempMongoBuilder.new).2
     rfl rfl rfl⟩

/-- C2 counterexample: with clean_on_drop configured false, a launch whose
readiness probe fails after the server process was spawned returns the
Connect error with the scoped temporary directory still on disk (the
spawned process itself was killed), so a failed launch does not leave no
directory behind for every configuration. -/
theorem failed_launch_keeps_dir_without_clean_on_drop :
    (TempMongo.from_builder .unix
        ⟨true, "/tmp/t", true, ⟨true, some 27017⟩, true, true, false⟩
        ⟨none, false, none⟩).1
      = .error (.Connect (serverAddressString .unix "/tmp/t")) ∧
    (TempMongo.from_builder .unix
        ⟨true, "/tmp/t", true, ⟨true, some 27017⟩, true, true, false⟩
        ⟨none, false, none⟩).2.fs.tmpDir = true ∧
    (TempMongo.from_builder .unix
        ⟨true, "/tmp/t", true, ⟨true, some 27017⟩, true, true, false⟩
        ⟨none, false, none⟩).2.procSpawned = true ∧
    (TempMongo.from_builder .unix
        ⟨true, "/tmp/t", true, ⟨true, some 27017⟩, true, true, false⟩
        ⟨none, false, none⟩).2.procAlive = false :=
  ⟨rfl, rfl, rfl, rfl⟩

/-- C2 amended: on every launch failure, for every configuration, any
spawned server process is killed before the error is returned; the scoped
directory is removed exactly when the builder clean_on_drop flag is true
(the default): then the directory, its db subdirectory and the log file are
all gone, while with clean_on_drop false a directory that was created stays
on disk. -/
theorem failed_launch_rolls_back
    (p : Platform) (env : LaunchEnv) (b : TempMongoBuilder)
    (e : ErrorInner) (w : World)
    (h : TempMongo.from_builder p env b = (.error e, w)) :
    w.procAlive = false ∧
    (b.clean_on_drop = true →
      w.fs.tmpDir = false ∧ w.fs.dbDir = false ∧ w.fs.logFile = false) ∧
    (env.tempDirOk = true → b.clean_on_drop = false → w.fs.tmpDir = true) := by
  obtain ⟨td, pth, db, ⟨bOk, la⟩, sp, cl, pr⟩ := env
  obtain ⟨pd, bcl, cmd⟩ := b
  cases td <;> cases db <;> cases bOk <;> cases la <;> cases sp <;> cases cl <;>
    cases pr <;> cases bcl <;>
    simp_all [TempMongo.from_builder, TempDir.dropRun, FS.removeTree,
      PortGenerator.new, PortGenerator.generate] <;>
    (obtain ⟨he, hw⟩ := h; subst hw; simp)

/-- C2 witness: the rollback theorem applied twice to a failing readiness
probe after a successful spawn: once with clean_on_drop false (process
killed, directory left on disk) and once with the default clean_on_drop
true (directory removed). -/
theorem failed_launch_rolls_back_witness :
    (World.mk ⟨true, true, true⟩ true false).procAlive = false ∧
    (World.mk ⟨true, true, true⟩ true false).fs.tmpDir = true ∧
    (World.mk ⟨false, false, false⟩ true false).fs.tmpDir = false :=
  ⟨(failed_launch_rolls_back .unix
      ⟨true, "/tmp/t", true, ⟨true, some 27017⟩, true, true, false⟩
      ⟨none, false, none⟩
      (.Connect (serverAddressString .unix "/tmp/t"))
      ⟨⟨true, true, true⟩, true, false⟩ rfl).1,
   (failed_launch_rolls_back .unix
      ⟨true, "/tmp/t", true, ⟨true, some 27017⟩, true, true, false⟩
      ⟨none, false, none⟩
      (.Connect (serverAddressString .unix "/tmp/t"))
      ⟨⟨true, true, true⟩, true, false⟩ rfl).2.2 rfl rfl,
   ((failed_launch_rolls_back .unix
      ⟨true, "/tmp/t", true, ⟨true, some 27017⟩, true, true, false⟩
      TempMongoBuilder.new
      (.Connect (serverAddressString .unix "/tmp/t"))
      ⟨⟨false, false, false⟩, true, false⟩ rfl).2.1 rfl).1⟩

/-- C3 counterexample: on unix the launch algorithm still performs port
allocation, and an allocation failure aborts the launch with the Port error
even though the endpoint would have been a socket path, refuting that no
port allocation is performed on platforms with local-domain sockets. -/
theorem unix_launch_performs_port_allocation :
    (TempMongo.from_builder .unix
        ⟨true, "/tmp/t", true, ⟨true, none⟩, true, true, true⟩
        TempMongoBuilder.new).1 = .error .Port := rfl

/-- C3 amended: every successful launch carries exactly one endpoint
representation in its client options: on unix the single Unix socket path
inside the scoped directory (also stored as socket_path), on windows the
single localhost plus allocated port pair; but the port allocation step is
executed unconditionally on every platform, so success implies a port was
selected, and per the counterexample an allocation failure aborts the
launch with the Port error even on unix; on windows the socket_path field
holds the literal localhost placeholder, never a socket path. -/
theorem launch_endpoint_unique_per_platform
    (p : Platform) (env : LaunchEnv) (b : TempMongoBuilder) (m : TempMongo) (w : World)
    (h : TempMongo.from_builder p env b = (.ok m, w)) :
    m.client.hosts.length = 1 ∧
    (PortGenerator.new.generate env.net).selected_port.isSome = true ∧
    (p = .unix →
      m.client.hosts = [.unixSock (env.tempDirPath ++ "/mongod.sock")] ∧
      m.socket_path = env.tempDirPath ++ "/mongod.sock") ∧
    (p = .windows →
      m.socket_path = "localhost" ∧
      ∀ port, (PortGenerator.new.generate env.net).selected_port = some port →
        m.client.hosts = [.tcp "localhost" port]) := by
  obtain ⟨td, pth, db, ⟨bOk, la⟩, sp, cl, pr⟩ := env
  cases p <;> cases td <;> cases db <;> cases bOk <;> cases la <;> cases sp <;>
    cases cl <;> cases pr <;>
    simp_all [TempMongo.from_builder, serverAddressString,
      PortGenerator.new, PortGenerator.generate] <;>
    (obtain ⟨hm, hw⟩ := h; subst hm; subst hw; simp)

/-- C3 witness: the endpoint theorem applied to a successful unix launch. -/
theorem launch_endpoint_unique_per_platform_witness :
    (ClientOptions.mk [.unixSock ("/tmp/t" ++ "/mongod.sock")] 100 true).hosts.length = 1 :=
  (launch_endpoint_unique_per_platform .unix
      ⟨true, "/tmp/t", true, ⟨true, some 27017⟩, true, true, true⟩ TempMongoBuilder.new
      ⟨⟨"/tmp/t", true, false⟩, "/tmp/t" ++ "/mongod.sock", "/tmp/t" ++ "/mongod.log",
        ⟨[.unixSock ("/tmp/t" ++ "/mongod.sock")], 100, true⟩, ⟨⟨true, false⟩⟩⟩
      ⟨⟨true, true, true⟩, true, true⟩ rfl).1

/-- C4: kill_and_clean force-cleans: every overall success leaves neither
the scoped directory nor its contents on disk; when the kill succeeded the
removal runs unconditionally and on success removes the whole tree of the
input filesystem state, with no reference to clean_on_drop; the visible
result never depends on the clean_on_drop mode at all; and when the kill
fails the KillServer error is the one returned, whatever the removal
outcome would have been. -/
theorem kill_and_clean_force_cleans
    (m : TempMongo) (killOsOk closeOk : Bool) (w : World) :
    (∀ w', m.kill_and_clean killOsOk closeOk w = (.ok (), w') →
      w'.fs.tmpDir = false ∧ w'.fs.dbDir = false ∧ w'.fs.logFile = false) ∧
    ((m.server.kill killOsOk).1 = .ok () → closeOk = true →
      m.kill_and_clean killOsOk closeOk w
        = (.ok (), ⟨w.fs.removeTree, w.procSpawned, false⟩)) ∧
    (∀ clean : Bool,
      (TempMongo.kill_and_clean
          { m with tempdir := m.tempdir.set_clean_on_drop clean } killOsOk closeOk w).1
        = (m.kill_and_clean killOsOk closeOk w).1) ∧
    (∀ z : IoErr, (m.server.kill killOsOk).1 = .error z →
      (m.kill_and_clean killOsOk closeOk w).1 = .error .KillServer) := by
  obtain ⟨⟨tdp, cl, fg⟩, sp, lp, co, ⟨⟨alive, waited⟩⟩⟩ := m
  cases alive <;> cases waited <;> cases killOsOk <;> cases closeOk <;>
    simp [TempMongo.kill_and_clean, KillOnDrop.kill, Child.kill, TempDir.close,
      TempDir.into_inner, TempDir.dropRun, TempDir.set_clean_on_drop, FS.removeTree]

/-- C4 witness: the force-clean equation applied to a live server with a
successful kill and a successful removal, under clean_on_drop false, which
the removal ignores. -/
theorem kill_and_clean_force_cleans_witness :
    TempMongo.kill_and_clean
        ⟨⟨"/tmp/w4", false, false⟩, "/tmp/w4/mongod.sock", "/tmp/w4/mongod.log",
          ⟨[.unixSock "/tmp/w4/mongod.sock"], 100, true⟩, ⟨⟨true, false⟩⟩⟩
        true true ⟨⟨true, true, true⟩, true, true⟩
      = (.ok (), ⟨FS.removeTree ⟨true, true, true⟩, true, false⟩) :=
  (kill_and_clean_force_cleans
      ⟨⟨"/tmp/w4", false, false⟩, "/tmp/w4/mongod.sock", "/tmp/w4/mongod.log",
        ⟨[.unixSock "/tmp/w4/mongod.sock"], 100, true⟩, ⟨⟨true, false⟩⟩⟩
      true true ⟨⟨true, true, true⟩, true, true⟩).2.1 rfl rfl

/-- C5 counterexample: two instances whose temporary directories have
different paths produce literally identical kill_no_clean outputs with the
unit success payload, so the retained path information is not returned to
the caller (inside the function it is bound to a discarded variable). -/
theorem kill_no_clean_discards_path :
    TempMongo.kill_no_clean
        ⟨⟨"/tmp/a", true, false⟩, "/tmp/a/mongod.sock", "/tmp/a/mongod.log",
          ⟨[.unixSock "/tmp/a/mongod.sock"], 100, true⟩, ⟨⟨true, false⟩⟩⟩
        true ⟨⟨true, true, true⟩, true, true⟩
      = (.ok (), ⟨⟨true, true, true⟩, true, false⟩) ∧
    TempMongo.kill_no_clean
        ⟨⟨"/tmp/b", true, false⟩, "/tmp/b/mongod.sock", "/tmp/b/mongod.log",
          ⟨[.unixSock "/tmp/b/mongod.sock"], 100, true⟩, ⟨⟨true, false⟩⟩⟩
        true ⟨⟨true, true, true⟩, true, true⟩
      = (.ok (), ⟨⟨true, true, true⟩, true, false⟩) ∧
    (("/tmp/a" : String) == "/tmp/b") = false :=
  ⟨rfl, rfl, rfl⟩

/-- C5 amended theorem: kill_no_clean never changes the filesystem, so the
scoped directory together with its db subdirectory and log file survives
exactly as the successful launch left them (a fully successful launch
leaves all three present), it can never produce a CleanDir error, and the
server process is no longer alive afterwards. -/
theorem kill_no_clean_preserves_dir :
    ∀ (m : TempMongo) (killOsOk : Bool) (w : World) (p : Platform)
      (path : String) (port : Nat) (b : TempMongoBuilder),
      (m.kill_no_clean killOsOk w).2.fs = w.fs ∧
      isCleanDirErr (m.kill_no_clean killOsOk w).1 = false ∧
      (m.kill_no_clean killOsOk w).2.procAlive = false ∧
      (TempMongo.from_builder p ⟨true, path, true, ⟨true, some port⟩, true, true, true⟩ b).2.fs
        = ⟨true, true, true⟩ := by
  intro m killOsOk w p path port b
  obtain ⟨⟨tdp, cl, fg⟩, sp, lp, co, ⟨⟨alive, waited⟩⟩⟩ := m
  refine ⟨?_, ?_, ?_, ?_⟩
  · cases alive <;> cases waited <;> cases killOsOk <;>
      simp [TempMongo.kill_no_clean, TempDir.into_path, TempDir.into_inner,
        KillOnDrop.kill, Child.kill]
  · cases alive <;> cases waited <;> cases killOsOk <;>
      simp [TempMongo.kill_no_clean, TempDir.into_path, TempDir.into_inner,
        KillOnDrop.kill, Child.kill, isCleanDirErr]
  · cases alive <;> cases waited <;> cases killOsOk <;>
      simp [TempMongo.kill_no_clean, TempDir.into_path, TempDir.into_inner,
        KillOnDrop.kill, Child.kill]
  · cases p <;>
      simp [TempMongo.from_builder, PortGenerator.new, PortGenerator.generate]

/-- C7: a launch returns a success value only when the client construction
and the readiness probe (the list_databases call issued through the
constructed client) both succeeded, and when the earlier steps succeeded
but client construction or the probe fails, the launch returns the Connect
error carrying the target server address. -/
theorem launch_success_requires_probe
    (p : Platform) (env : LaunchEnv) (b : TempMongoBuilder) :
    (∀ m w, TempMongo.from_builder p env b = (.ok m, w) →
      env.probeOk = true ∧ env.clientOk = true) ∧
    (env.tempDirOk = true → env.dbDirOk = true →
      (PortGenerator.new.generate env.net).selected_port.isSome = true →
      env.spawnOk = true → (env.clientOk = false ∨ env.probeOk = false) →
      (TempMongo.from_builder p env b).1
        = .error (.Connect (serverAddressString p env.tempDirPath))) := by
  obtain ⟨td, pth, db, ⟨bOk, la⟩, sp, cl, pr⟩ := env
  cases td <;> cases db <;> cases bOk <;> cases la <;> cases sp <;> cases cl <;> cases pr <;>
    simp_all [TempMongo.from_builder, PortGenerator.new, PortGenerator.generate]

/-- C7 witness: the probe theorem applied to a launch whose readiness probe
fails while every earlier step succeeded. -/
theorem launch_success_requires_probe_witness :
    (TempMongo.from_builder .unix
        ⟨true, "/tmp/t", true, ⟨true, some 27017⟩, true, true, false⟩
        TempMongoBuilder.new).1
      = .error (.Connect (serverAddressString .unix "/tmp/t")) :=
  (launch_success_requires_probe .unix
      ⟨true, "/tmp/t", true, ⟨true, some 27017⟩, true, true, false⟩
      TempMongoBuilder.new).2 rfl rfl rfl rfl (Or.inr rfl)
